import Mathlib

/-!
Verification of the image-generation engines of SirChatalot
(`src/chatutils/image_engines.py`).

The file shallowly embeds the two engine classes (`DalleEngine`,
`StabilityEngine`): their sliding-window rate limiter, the inline
prompt-directive parser, request building, and response classification.
Python strings are modelled as Lean `String`, with the handful of Python
`str` methods the source uses (`replace`, `in`, `strip`, `split`)
re-implemented over `List Char` so that they are fully executable and
match CPython semantics (leftmost, non-overlapping replacement, etc.).
Stateful pieces (the per-identity timestamp table, the HTTP provider)
become explicit arguments: the rate-limit table is a total map from
identities to timestamp lists, the provider response is an oracle value,
and a Python exception raised inside a `try` body is the `raised`
constructor of `PyResult`.
-/

/-- Models Python `s.startswith(pat)` on character lists. -/
def listStartsWith : List Char → List Char → Bool
  | _, [] => true
  | [], _ :: _ => false
  | a :: as, b :: bs => a = b && listStartsWith as bs

theorem listStartsWith_length {s pat : List Char} (h : listStartsWith s pat = true) :
    pat.length ≤ s.length := by
  induction s generalizing pat with
  | nil =>
    cases pat with
    | nil => simp
    | cons b bs => simp [listStartsWith] at h
  | cons a as ih =>
    cases pat with
    | nil => simp
    | cons b bs =>
      simp only [listStartsWith, Bool.and_eq_true] at h
      simpa [List.length_cons, Nat.succ_le_succ_iff] using ih h.2

/-- Models Python `pat in s` (substring test) on character lists. -/
def pyContainsL : List Char → List Char → Bool
  | [], pat => listStartsWith [] pat
  | c :: cs, pat => listStartsWith (c :: cs) pat || pyContainsL cs pat

/-- Loop of Python `s.replace(pat, rep)`: leftmost, non-overlapping
replacement of every occurrence (for nonempty `pat`; an empty `pat` is
never passed by the embedded code and is treated as no occurrence).
Structural recursion on a fuel argument — each step consumes at least
one character, so fuel `s.length` never runs out. -/
def pyReplaceGo (pat rep : List Char) : Nat → List Char → List Char
  | _, [] => []
  | 0, s => s
  | fuel + 1, c :: cs =>
    if pat ≠ [] ∧ listStartsWith (c :: cs) pat = true then
      rep ++ pyReplaceGo pat rep fuel ((c :: cs).drop pat.length)
    else
      c :: pyReplaceGo pat rep fuel cs

/-- Models Python `s.replace(pat, rep)` on character lists. -/
def pyReplaceL (s pat rep : List Char) : List Char :=
  pyReplaceGo pat rep s.length s

/-- Whitespace per Python `str.strip` / `str.split` (ASCII subset, which
covers every string the embedded code manipulates). -/
def pySpace (c : Char) : Bool := c = ' ' || c = '\t' || c = '\n' || c = '\r'

/-- Models Python `s.strip()` on character lists. -/
def pyStripL (s : List Char) : List Char :=
  ((s.dropWhile pySpace).reverse.dropWhile pySpace).reverse

/-- Accumulator loop for Python `s.split(sep)` with nonempty `sep`
(structural recursion on fuel; fuel `s.length + 1` never runs out). -/
def pySplitGo (pat : List Char) : Nat → List Char → List Char → List (List Char)
  | 0, acc, _ => [acc.reverse]
  | fuel + 1, acc, s =>
    if pat ≠ [] ∧ listStartsWith s pat = true then
      acc.reverse :: pySplitGo pat fuel [] (s.drop pat.length)
    else
      match s with
      | [] => [acc.reverse]
      | c :: cs => pySplitGo pat fuel (c :: acc) cs

/-- Accumulator loop for Python `s.split()` (split on whitespace runs,
dropping empty pieces). -/
def pyWordsGo : List Char → List Char → List (List Char)
  | acc, [] => if acc.isEmpty then [] else [acc.reverse]
  | acc, c :: cs =>
    if pySpace c then
      if acc.isEmpty then pyWordsGo [] cs else acc.reverse :: pyWordsGo [] cs
    else
      pyWordsGo (c :: acc) cs

/-- Python `pat in s` on `String`. -/
def strContains (s pat : String) : Bool := pyContainsL s.data pat.data

/-- Python `s.replace(pat, rep)` on `String`. -/
def pyReplace (s pat rep : String) : String := String.mk (pyReplaceL s.data pat.data rep.data)

/-- Python `s.strip()` on `String`. -/
def pyStrip (s : String) : String := String.mk (pyStripL s.data)

/-- Python `s.split(pat)` on `String` (nonempty separator). -/
def pySplitStr (s pat : String) : List String :=
  (pySplitGo pat.data (s.data.length + 1) [] s.data).map String.mk

/-- Python `s.split()` on `String`. -/
def pySplitWS (s : String) : List String := (pyWordsGo [] s.data).map String.mk

/-- Decimal-digit parse of a nonempty character list. -/
def pyDigitsL : List Char → Option Nat
  | [] => none
  | l =>
    l.foldl
      (fun acc c =>
        acc.bind (fun a => if c.isDigit then some (a * 10 + (c.toNat - 48)) else none))
      (some 0)

/-- Models Python `int(s)` on a whitespace-free token: optional sign
followed by decimal digits, `none` when the literal is invalid
(a `ValueError` at the call site). -/
def pyInt (s : String) : Option Int :=
  match s.data with
  | '-' :: rest => (pyDigitsL rest).map (fun n => -(n : Int))
  | '+' :: rest => (pyDigitsL rest).map (fun n => (n : Int))
  | _ => (pyDigitsL s.data).map (fun n => (n : Int))

/-- Models Python `round` on a rational (half-to-even), as used by the
rate-limit message `round(time/60)`. -/
def pyRound (q : ℚ) : Int :=
  let f : Int := ⌊q⌋
  let r : ℚ := q - f
  if r < 1/2 then f
  else if 1/2 < r then f + 1
  else if f % 2 = 0 then f else f + 1

/-! ### SHA-1 (`hashlib.sha1(...).hexdigest()` as used at line 148) -/

/-- Truncation to a 32-bit word. -/
def m32 (x : Nat) : Nat := x % 4294967296

/-- 32-bit left rotation (inputs below `2 ^ 32`). -/
def rotl (k x : Nat) : Nat := m32 ((x <<< k) ||| (x >>> (32 - k)))

/-- UTF-8 encoding of one scalar value (Python `str.encode("utf-8")`). -/
def utf8Char (c : Char) : List Nat :=
  let n := c.toNat
  if n < 128 then [n]
  else if n < 2048 then [192 ||| (n >>> 6), 128 ||| (n &&& 63)]
  else if n < 65536 then
    [224 ||| (n >>> 12), 128 ||| ((n >>> 6) &&& 63), 128 ||| (n &&& 63)]
  else
    [240 ||| (n >>> 18), 128 ||| ((n >>> 12) &&& 63),
     128 ||| ((n >>> 6) &&& 63), 128 ||| (n &&& 63)]

/-- UTF-8 bytes of a string. -/
def utf8Bytes (s : String) : List Nat := (s.data.map utf8Char).flatten

/-- Big-endian byte expansion (`k` bytes). -/
def beBytes (k n : Nat) : List Nat :=
  (List.range k).map (fun i => (n >>> (8 * (k - 1 - i))) % 256)

/-- SHA-1 message padding. -/
def sha1Pad (msg : List Nat) : List Nat :=
  let L := msg.length
  let z := (120 - ((L + 1) % 64)) % 64
  msg ++ [128] ++ List.replicate z 0 ++ beBytes 8 (8 * L)

/-- Packs bytes into big-endian 32-bit words. -/
def bytesToWords : List Nat → List Nat
  | b0 :: b1 :: b2 :: b3 :: rest =>
    ((b0 <<< 24) ||| (b1 <<< 16) ||| (b2 <<< 8) ||| b3) :: bytesToWords rest
  | _ => []

/-- The 80-word SHA-1 message schedule of one block. -/
def sha1Schedule (ws : List Nat) : Array Nat :=
  (List.range 80).foldl
    (fun a i =>
      if i < 16 then a.push (ws.getD i 0)
      else a.push (rotl 1 ((a.getD (i - 3) 0) ^^^ (a.getD (i - 8) 0) ^^^
                           (a.getD (i - 14) 0) ^^^ (a.getD (i - 16) 0))))
    #[]

/-- One SHA-1 compression round over the state `(a, b, c, d, e)`. -/
def sha1Round (w : Array Nat) (st : Nat × Nat × Nat × Nat × Nat) (i : Nat) :
    Nat × Nat × Nat × Nat × Nat :=
  let (a, b, c, d, e) := st
  let f :=
    if i < 20 then (b &&& c) ||| ((b ^^^ 4294967295) &&& d)
    else if i < 40 then b ^^^ c ^^^ d
    else if i < 60 then (b &&& c) ||| (b &&& d) ||| (c &&& d)
    else b ^^^ c ^^^ d
  let k :=
    if i < 20 then 1518500249
    else if i < 40 then 1859775393
    else if i < 60 then 2400959708
    else 3395469782
  let temp := m32 (rotl 5 a + f + e + k + w.getD i 0)
  (temp, a, rotl 30 b, c, d)

/-- SHA-1 compression of one 64-byte block. -/
def sha1Compress (h : Nat × Nat × Nat × Nat × Nat) (block : List Nat) :
    Nat × Nat × Nat × Nat × Nat :=
  let w := sha1Schedule (bytesToWords block)
  let (h0, h1, h2, h3, h4) := h
  let (a, b, c, d, e) := (List.range 80).foldl (sha1Round w) (h0, h1, h2, h3, h4)
  (m32 (h0 + a), m32 (h1 + b), m32 (h2 + c), m32 (h3 + d), m32 (h4 + e))

/-- Folds SHA-1 compression over the padded message. -/
def sha1Blocks (h : Nat × Nat × Nat × Nat × Nat) : List Nat → Nat × Nat × Nat × Nat × Nat
  | [] => h
  | b :: bs => sha1Blocks (sha1Compress h ((b :: bs).take 64)) ((b :: bs).drop 64)
termination_by l => l.length
decreasing_by simp [List.length_drop, List.length_cons]; omega

/-- SHA-1 state after hashing a string's UTF-8 bytes. -/
def sha1Hash (s : String) : Nat × Nat × Nat × Nat × Nat :=
  sha1Blocks (1732584193, 4023233417, 2562383102, 271733878, 3285377520)
    (sha1Pad (utf8Bytes s))

/-- One lowercase hexadecimal digit (`0`-`9`, `a`-`f`). -/
def hexDigit (n : Nat) : Char :=
  Char.ofNat (if n < 10 then 48 + n else 87 + n)

/-- Eight-hex-digit rendering of a 32-bit word. -/
def hex8 (x : Nat) : List Char :=
  (List.range 8).map (fun i => hexDigit ((x >>> (4 * (7 - i))) % 16))

/-- Python `hashlib.sha1(s.encode("utf-8")).hexdigest()`. -/
def sha1Hex (s : String) : String :=
  match sha1Hash s with
  | (h0, h1, h2, h3, h4) =>
    String.mk (hex8 h0 ++ hex8 h1 ++ hex8 h2 ++ hex8 h3 ++ hex8 h4)

/-! ### The sliding-window rate limiter

`DalleEngine.image_rate_limit_check` (lines 208-229) and
`StabilityEngine.image_rate_limit_check` (lines 427-448) are textually
identical, so one embedding serves both engines.  The per-engine
`self.image_rate_limit` dictionary is a total map from identities to
timestamp lists (absent keys read as `[]`, matching the
`if id not in ...: ... = []` initialisation); `time.time()` is the
explicit argument `now`. -/

/-- One call of `image_rate_limit_check(id)` with configured limit
`count` and window `window` (seconds), at wall-clock time `now`.
Returns the boolean result together with the updated table. -/
def image_rate_limit_check (count window : Int) (st : String → List ℚ)
    (idv : String) (now : ℚ) : Bool × (String → List ℚ) :=
  if count ≤ 0 ∨ window ≤ 0 then (true, st)
  else
    let hist := st idv ++ [now]
    let hist2 := hist.filter (fun t => now - t < (window : ℚ))
    let st2 := fun x => if x = idv then hist2 else st x
    if count < (hist2.length : Int) then (false, st2) else (true, st2)

/-- The table after a sequence of checks for one identity (result bits
discarded); used to phrase multi-call scenarios. -/
def foldChecks (count window : Int) (idv : String) (st : String → List ℚ)
    (ts : List ℚ) : String → List ℚ :=
  ts.foldl (fun s t => (image_rate_limit_check count window s idv t).2) st

/-- The throttling message of lines 120 / 314 (`round(.../60)` is Python
banker's rounding). -/
def rate_limit_message (count time : Int) : String :=
  "Image generation is rate limited (only " ++ toString count ++ " images per " ++
    toString (pyRound ((time : ℚ) / 60)) ++ " minutes are allowed). Please try again later."

/-- Outcome of the body of a Python `try` block: a value, or an
exception that the enclosing handler receives. -/
inductive PyResult (α : Type) where
  | ok : α → PyResult α
  | raised : PyResult α
deriving DecidableEq, Repr

/-! ### DalleEngine (lines 30-229) -/

/-- The settings `DalleEngine.imagine` reads (subset of the settings
dict loaded at lines 70-94 that the embedded methods use). -/
structure DalleSettings where
  ImageGenModel : String
  ImageRateLimitCount : Int
  ImageRateLimitTime : Int
deriving DecidableEq, Repr

/-- The keyword arguments of `client.images.generate` (lines 149-158). -/
structure DalleRequest where
  model : String
  prompt : String
  size : String
  quality : String
  n : Int
  style : String
  user : String
deriving DecidableEq, Repr

/-- Lines 124-143: the six inline directives, matched and stripped in
source order on the em-dash-normalised prompt.  Returns
`(prompt, size, style, quality)`; the final `strip()` of line 144 is
applied by the caller. -/
def dalleDirectives (model size style quality p0 : String) :
    String × String × String × String :=
  let p := pyReplace p0 "—" "--"
  let sp1 := if strContains p "--natural" then ("natural", pyReplace p "--natural" "") else (style, p)
  let sp2 := if strContains sp1.2 "--vivid" then ("vivid", pyReplace sp1.2 "--vivid" "") else (sp1.1, sp1.2)
  let qp1 := if strContains sp2.2 "--sd" then ("standard", pyReplace sp2.2 "--sd" "") else (quality, sp2.2)
  let qp2 := if strContains qp1.2 "--hd" then ("hd", pyReplace qp1.2 "--hd" "") else (qp1.1, qp1.2)
  let zp1 :=
    if strContains qp2.2 "--horizontal" then
      ((if model = "dall-e-3" then "1792x1024" else size), pyReplace qp2.2 "--horizontal" "")
    else (size, qp2.2)
  let zp2 :=
    if strContains zp1.2 "--vertical" then
      ((if model = "dall-e-3" then "1024x1792" else zp1.1), pyReplace zp1.2 "--vertical" "")
    else (zp1.1, zp1.2)
  (zp2.2, zp2.1, sp2.1, qp2.1)

/-- Line 148 together with the `user=str(user_id)` keyword of line 157:
the end-user field sent to the provider.  With the flag set it is the
SHA-1 hex digest of `str(id)`; otherwise `str(None)`, the literal
string `"None"`. -/
def dalleUserField (end_user_id : Bool) (idv : String) : String :=
  match (if end_user_id then some (sha1Hex idv) else none) with
  | some h => h
  | none => "None"

/-- Lines 122-158 up to the provider call: directive parsing, the
empty-prompt guard, and request construction.  `prompt = none` models a
Python `None` prompt, on which `prompt.replace` raises
(`AttributeError`), caught by the `except Exception` of line 176.
`.inl` is an early `return`; `.inr` is the request handed to
`client.images.generate`. -/
def dalleBuildRequest (s : DalleSettings) (end_user_id : Bool)
    (prompt : Option String) (idv size style quality : String) (n : Int) :
    PyResult (Sum (Option String × Option String) DalleRequest) :=
  match prompt with
  | none => .raised
  | some p0 =>
    match dalleDirectives s.ImageGenModel size style quality p0 with
    | (p1, size1, style1, quality1) =>
      let p := pyStrip p1
      if p = "" then .ok (.inl (none, some "No text prompt was given. Please try again."))
      else
        .ok (.inr { model := s.ImageGenModel, prompt := p, size := size1,
                    quality := quality1, n := n, style := style1,
                    user := dalleUserField end_user_id idv })

/-- How the provider call resolves, seen through the `except` clauses of
lines 168-178: a response object, an `openai.BadRequestError` (whose
`str` the handler inspects), an `openai.RateLimitError`, or any other
exception — which is where HTTP 500 / `InternalServerError` lands,
since it is neither of the two named classes. -/
inductive DalleOutcome where
  | success (b64_json : Option String) (revised_prompt : Option String)
  | badRequestError (message : String)
  | rateLimitError
  | otherException
deriving DecidableEq, Repr

/-- Lines 159-178: response interpretation and exception handlers.
In `success`, `b64_json = none` models a falsy payload field and
`revised_prompt = none` a missing attribute (the inner `try` of lines
161-166 turns that into `None`). -/
def dalleHandleOutcome (revision : Bool) (o : DalleOutcome) :
    Option String × Option String :=
  match o with
  | .success b64 revised =>
    let b64img : Option String :=
      match b64 with
      | some s => if s = "" then none else some s
      | none => none
    (b64img, if revision then revised else none)
  | .badRequestError e =>
    if strContains e "content_policy_violation" then
      (none, some "Your request was rejected because it may violate content policy. Please review it and try again.")
    else (none, some "Your request was rejected. Please review it and try again.")
  | .rateLimitError => (none, some "Service is getting rate limited. Please try again later.")
  | .otherException => (none, none)

/-- `DalleEngine.imagine` (lines 96-178).  The rate-limit table `st` and
clock `now` feed the check of line 119; `o` is the provider outcome. -/
def dalleImagine (s : DalleSettings) (end_user_id : Bool)
    (st : String → List ℚ) (now : ℚ) (o : DalleOutcome)
    (prompt : Option String) (idv size style quality : String) (n : Int)
    (revision : Bool) : Option String × Option String :=
  if (image_rate_limit_check s.ImageRateLimitCount s.ImageRateLimitTime st idv now).1 = false then
    (none, some (rate_limit_message s.ImageRateLimitCount s.ImageRateLimitTime))
  else
    match dalleBuildRequest s end_user_id prompt idv size style quality n with
    | .raised => (none, none)
    | .ok (.inl r) => r
    | .ok (.inr _) => dalleHandleOutcome revision o

/-- `DalleEngine.generate_image` (lines 180-206).  `exn = true` models
an exception raised inside the `try` body (line 204), answered with a
bare `None` — hence the result type `Option (pair)`: `none` is Python
`None`, `some pr` the two-element tuple `pr`. -/
def dalleGenerate_image (s : DalleSettings) (end_user_id : Bool)
    (st : String → List ℚ) (now : ℚ) (o : DalleOutcome) (exn : Bool)
    (prompt : Option String) (image_orientation image_style : Option String) :
    Option (Option String × Option String) :=
  if exn then none
  else
    match prompt with
    | none => some (none, none)
    | some p =>
      let size0 := "1024x1024"
      let size :=
        match image_orientation with
        | some orient =>
          let a := if orient = "landscape" then "1792x1024" else size0
          if orient = "portrait" then "1024x1792" else a
        | none => size0
      let style :=
        match image_style with
        | some sty => if sty = "natural" then "natural" else "vivid"
        | none => "vivid"
      some (dalleImagine s end_user_id st now o (some p) "function" size style "standard" 1 true)

/-! ### StabilityEngine (lines 235-448) -/

/-- The settings `StabilityEngine.imagine` reads (loaded at lines
271-291).  The config key `ImageGenerationRatio` is stored under
`settings["ImageGenerationSize"]`; `NegativePrompt` is `None`-able,
`Seed` is an `int`. -/
structure StabilitySettings where
  ImageGenerationSize : String
  NegativePrompt : Option String
  Seed : Int
  ImageRateLimitCount : Int
  ImageRateLimitTime : Int
deriving DecidableEq, Repr

/-- The `data` dict of the Stability request (lines 322-364).  The
source key `aspect_ratio` is named `aspect_r` here. -/
structure StabilityData where
  negative_prompt : Option String := none
  aspect_r : Option String := none
  seed : Option Int := none
  prompt : String := ""
  output_format : String := ""
deriving DecidableEq, Repr

/-- Lines 322-338: seeding `data` from settings, then applying the
per-call arguments.  The source guards `settings["ImageGenerationSize"]
is not None` and `settings["Seed"] is not None` are vacuously true for
the loaded settings (a config string and an `int`), so those two
assignments are unconditional here. -/
def stabilitySeedData (s : StabilitySettings) (negative_prompt : Option String)
    (seed : Int) (ratioArg : String) : StabilityData :=
  let d1 : StabilityData :=
    match s.NegativePrompt with
    | some np => { negative_prompt := some np }
    | none => {}
  let d2 := { d1 with aspect_r := some s.ImageGenerationSize }
  let d3 := { d2 with seed := some s.Seed }
  let d4 :=
    match negative_prompt with
    | some np =>
      let nv :=
        match d3.negative_prompt with
        | some x => x ++ "; " ++ np
        | none => np
      { d3 with negative_prompt := some nv }
    | none => d3
  let d5 := if 0 < seed then { d4 with seed := some seed } else d4
  if ratioArg ≠ "1:1" then { d5 with aspect_r := some ratioArg } else d5

/-- Lines 341-346: `--horizontal` / `--vertical` are stripped from the
prompt.  The source also assigns `ratio = '16:9'` / `'9:16'` to the
local variable, but that variable is never read afterwards (`data` was
already seeded at line 338), so the assignments have no further
effect. -/
def stabilityStepHV (p : String) : String :=
  let p1 := if strContains p "--horizontal" then pyReplace p "--horizontal" "" else p
  if strContains p1 "--vertical" then pyReplace p1 "--vertical" "" else p1

/-- Lines 347-351: the `--ratio <v>` directive.  `raised` covers the
`IndexError` of `''.split()[0]` when no argument follows. -/
def stabilityStepRatio (p : String) (d : StabilityData) :
    PyResult (String × StabilityData) :=
  if strContains p "--ratio" then
    match pySplitStr p "--ratio" with
    | _ :: after :: _ =>
      match pySplitWS (pyStrip after) with
      | tok :: _ =>
        .ok (pyReplace p ("--ratio " ++ tok) "", { d with aspect_r := some tok })
      | [] => .raised
    | _ => .raised
  else .ok (p, d)

/-- Lines 352-356: the `--negative <v>` directive.  When
`"negative_prompt"` is not yet a key of `data`, the augmented
assignment `data["negative_prompt"] += ...` reads the missing key and
raises `KeyError` (the conditional expression only selects the
right-hand side). -/
def stabilityStepNegative (p : String) (d : StabilityData) :
    PyResult (String × StabilityData) :=
  if strContains p "--negative" then
    match pySplitStr p "--negative" with
    | _ :: after :: _ =>
      match pySplitWS (pyStrip after) with
      | tok :: _ =>
        let p2 := pyReplace p ("--negative " ++ tok) ""
        match d.negative_prompt with
        | some x => .ok (p2, { d with negative_prompt := some (x ++ "; " ++ tok) })
        | none => .raised
      | [] => .raised
    | _ => .raised
  else .ok (p, d)

/-- Lines 357-361: the `--seed <v>` directive; `int(seed)` raises
`ValueError` on a non-numeric token. -/
def stabilityStepSeed (p : String) (d : StabilityData) :
    PyResult (String × StabilityData) :=
  if strContains p "--seed" then
    match pySplitStr p "--seed" with
    | _ :: after :: _ =>
      match pySplitWS (pyStrip after) with
      | tok :: _ =>
        match pyInt tok with
        | some k => .ok (pyReplace p ("--seed " ++ tok) "", { d with seed := some k })
        | none => .raised
      | [] => .raised
    | _ => .raised
  else .ok (p, d)

/-- Lines 341-361 in source order. -/
def stabilityDirectives (p : String) (d : StabilityData) :
    PyResult (String × StabilityData) :=
  let p1 := stabilityStepHV p
  match stabilityStepRatio p1 d with
  | .raised => .raised
  | .ok (p2, d2) =>
    match stabilityStepNegative p2 d2 with
    | .raised => .raised
    | .ok (p3, d3) => stabilityStepSeed p3 d3

/-- Lines 316-364 up to the provider call: the `None` / empty-prompt
guards (which run *before* directive parsing), normalisation, `data`
construction, and directive application.  `.inl` is an early `return`;
`.inr` is the `data` dict handed to `requests.post`. -/
def stabilityBuildData (s : StabilitySettings) (prompt : Option String)
    (ratioArg : String) (negative_prompt : Option String) (seed : Int)
    (output_format : String) :
    PyResult (Sum (Option String × Option String) StabilityData) :=
  match prompt with
  | none => .ok (.inl (none, some "No text prompt was given. Please try again."))
  | some p0 =>
    if p0 = "" then .ok (.inl (none, some "Text prompt is empty. Please try again."))
    else
      let p1 := pyReplace (pyReplace p0 "—" "--") "  " " "
      let d := stabilitySeedData s negative_prompt seed ratioArg
      match stabilityDirectives p1 d with
      | .raised => .raised
      | .ok (p2, d2) => .ok (.inr { d2 with prompt := p2, output_format := output_format })

/-- The parsed JSON body of a Stability response; `none` fields model
missing keys (`response_data['seed']` on a missing key raises). -/
structure StabilityJson where
  image : Option String := none
  seed : Option Int := none
  finish_reason : Option String := none
deriving DecidableEq, Repr

/-- A Stability HTTP response: status code and JSON body
(`raised` in the body models `response.json()` failing). -/
structure StabilityResponse where
  status_code : Int
  json : PyResult StabilityJson
deriving DecidableEq, Repr

/-- Lines 375-397: response classification. -/
def stabilityHandleResponse (finalPrompt : String) (revision : Bool)
    (r : StabilityResponse) : PyResult (Option String × Option String) :=
  if r.status_code = 200 then
    match r.json with
    | .raised => .raised
    | .ok j =>
      match j.image with
      | some img =>
        if revision then
          match j.seed, j.finish_reason with
          | some sd, some fr =>
            .ok (some img, some ("Prompt: " ++ finalPrompt ++ ". Seed: " ++ toString sd ++
              ". Finish Reason: " ++ fr))
          | _, _ => .raised
        else .ok (some img, none)
      | none =>
        match j.finish_reason with
        | some fr => .ok (none, some ("Could not generate image. Finish Reason: " ++ fr))
        | none => .ok (none, some "Could not generate image. Please try again.")
  else if r.status_code = 400 then .ok (none, some "Your request was rejected (BadRequest).")
  else if r.status_code = 403 then
    .ok (none, some "Your request was flagged by content moderation. Please review it and try again.")
  else if r.status_code = 500 then .ok (none, some "Service is down. Please try again later.")
  else .ok (none, some "Could not generate image. Please try again.")

/-- `StabilityEngine.imagine` (lines 293-400).  `resp = raised` models
`requests.post` itself raising; every `raised` is caught by the
`except Exception` of line 398 and becomes `(None, None)`. -/
def stabilityImagine (s : StabilitySettings) (st : String → List ℚ) (now : ℚ)
    (resp : PyResult StabilityResponse) (prompt : Option String) (idv : String)
    (ratioArg : String) (negative_prompt : Option String) (seed : Int)
    (output_format : String) (revision : Bool) : Option String × Option String :=
  if (image_rate_limit_check s.ImageRateLimitCount s.ImageRateLimitTime st idv now).1 = false then
    (none, some (rate_limit_message s.ImageRateLimitCount s.ImageRateLimitTime))
  else
    match stabilityBuildData s prompt ratioArg negative_prompt seed output_format with
    | .raised => (none, none)
    | .ok (.inl r) => r
    | .ok (.inr d) =>
      match resp with
      | .raised => (none, none)
      | .ok response =>
        match stabilityHandleResponse d.prompt revision response with
        | .raised => (none, none)
        | .ok r => r

/-- `StabilityEngine.generate_image` (lines 402-425); as for the other
engine, `exn = true` models an exception in the `try` body, answered
with a bare `None` (line 425). -/
def stabilityGenerate_image (s : StabilitySettings) (st : String → List ℚ)
    (now : ℚ) (resp : PyResult StabilityResponse) (exn : Bool)
    (prompt : Option String) (image_orientation image_style : Option String) :
    Option (Option String × Option String) :=
  if exn then none
  else
    match prompt with
    | none => some (none, none)
    | some p =>
      let ratio0 := "1:1"
      let ratioArg :=
        match image_orientation with
        | some orient =>
          let a := if orient = "landscape" then "16:9" else ratio0
          if orient = "portrait" then "9:16" else a
        | none => ratio0
      some (stabilityImagine s st now resp (some p) "function" ratioArg none 0 "jpeg" false)

/-! ### Helper lemmas on the rate limiter -/

theorem check_disabled {count window : Int} (st : String → List ℚ) (idv : String)
    (now : ℚ) (h : count ≤ 0 ∨ window ≤ 0) :
    image_rate_limit_check count window st idv now = (true, st) := by
  simp [image_rate_limit_check, h]

theorem check_state_eq {count window : Int} (st : String → List ℚ) (idv : String)
    (now : ℚ) (hN : 0 < count) (hW : 0 < window) :
    (image_rate_limit_check count window st idv now).2 idv =
      (st idv ++ [now]).filter (fun t => now - t < (window : ℚ)) := by
  have hc : ¬(count ≤ 0 ∨ window ≤ 0) := by omega
  simp only [image_rate_limit_check, hc, if_false]
  split <;> simp

theorem check_state_other {count window : Int} (st : String → List ℚ) (idv x : String)
    (now : ℚ) (hx : x ≠ idv) :
    (image_rate_limit_check count window st idv now).2 x = st x := by
  simp only [image_rate_limit_check]
  split
  · rfl
  · split <;> simp [hx]

theorem check_result_iff {count window : Int} (st : String → List ℚ) (idv : String)
    (now : ℚ) (hN : 0 < count) (hW : 0 < window) :
    ((image_rate_limit_check count window st idv now).1 = false ↔
      count < (((st idv ++ [now]).filter (fun t => now - t < (window : ℚ))).length : Int)) := by
  have hc : ¬(count ≤ 0 ∨ window ≤ 0) := by omega
  simp only [image_rate_limit_check, hc, if_false]
  split <;> simp_all

theorem foldChecks_keep (count window : Int) (hN : 0 < count) (hW : 0 < window)
    (idv : String) :
    ∀ (ts : List ℚ) (st : String → List ℚ),
      ts.Pairwise (fun a b => b - a < (window : ℚ)) →
      (∀ a ∈ st idv, ∀ t ∈ ts, t - a < (window : ℚ)) →
      foldChecks count window idv st ts idv = st idv ++ ts := by
  intro ts
  induction ts with
  | nil => intro st _ _; simp [foldChecks]
  | cons t rest ih =>
    intro st hpw hst
    rw [List.pairwise_cons] at hpw
    have hstep : (image_rate_limit_check count window st idv t).2 idv = st idv ++ [t] := by
      rw [check_state_eq st idv t hN hW]
      rw [List.filter_eq_self]
      intro a ha
      rcases List.mem_append.1 ha with h1 | h1
      · simpa using hst a h1 t (by simp)
      · have : a = t := by simpa using h1
        subst this
        have : (0 : ℚ) < (window : ℚ) := by exact_mod_cast hW
        simpa using this
    have hrec := ih (image_rate_limit_check count window st idv t).2 hpw.2 ?_
    · show foldChecks count window idv st (t :: rest) idv = _
      unfold foldChecks at hrec ⊢
      simp only [List.foldl_cons]
      rw [hrec, hstep]
      simp
    · intro a ha r hr
      rw [hstep] at ha
      rcases List.mem_append.1 ha with h1 | h1
      · exact hst a h1 r (by simp [hr])
      · have : a = t := by simpa using h1
        subst this
        exact hpw.1 r hr

/-- Claim C1: for every engine (the two `image_rate_limit_check` bodies
are identical), the check returns `true` unconditionally when the
configured count or window is non-positive; when both are positive, it
appends `now` to the identity's history, prunes entries outside the
window relative to `now`, and returns `false` exactly when the
resulting count exceeds the limit; in particular the `(N+1)`-th call
within the window (starting from an empty history) returns `false`,
and once the whole history is more than `window` seconds old the next
call returns `true` again. -/
theorem C1_rate_limiter (count window : Int) (st : String → List ℚ)
    (idv : String) (now : ℚ) :
    (count ≤ 0 ∨ window ≤ 0 → (image_rate_limit_check count window st idv now).1 = true)
    ∧ (0 < count → 0 < window →
        (image_rate_limit_check count window st idv now).2 idv =
          (st idv ++ [now]).filter (fun t => now - t < (window : ℚ))
        ∧ ((image_rate_limit_check count window st idv now).1 = false ↔
            count < (((st idv ++ [now]).filter (fun t => now - t < (window : ℚ))).length : Int)))
    ∧ (0 < count → 0 < window →
        ∀ ts : List ℚ, (ts.length : Int) = count →
          (ts ++ [now]).Pairwise (· ≤ ·) →
          (∀ t ∈ ts, now - t < (window : ℚ)) →
          (image_rate_limit_check count window
            (foldChecks count window idv (fun _ => []) ts) idv now).1 = false)
    ∧ (0 < count → 0 < window →
        (∀ t ∈ st idv, (window : ℚ) < now - t) →
        (image_rate_limit_check count window st idv now).1 = true) := by
  refine ⟨fun h => by rw [check_disabled st idv now h], fun hN hW => ⟨check_state_eq st idv now hN hW, check_result_iff st idv now hN hW⟩, fun hN hW ts hlen hpw hwin => ?_, fun hN hW hold => ?_⟩
  · have hle : ∀ t ∈ ts, t ≤ now := by
      intro t ht
      have := (List.pairwise_append.1 hpw).2.2 t ht now (by simp)
      exact this
    have hpw2 : ts.Pairwise (fun a b => b - a < (window : ℚ)) := by
      have hts : ts.Pairwise (· ≤ ·) := (List.pairwise_append.1 hpw).1
      refine hts.imp_of_mem ?_
      intro a b ha hb hab
      calc b - a ≤ now - a := by linarith [hle b hb]
        _ < (window : ℚ) := hwin a ha
    have hstate : foldChecks count window idv (fun _ => []) ts idv = ts := by
      have := foldChecks_keep count window hN hW idv ts (fun _ => []) hpw2 (by simp)
      simpa using this
    rw [check_result_iff _ idv now hN hW, hstate]
    have hall : (ts ++ [now]).filter (fun t => now - t < (window : ℚ)) = ts ++ [now] := by
      rw [List.filter_eq_self]
      intro a ha
      rcases List.mem_append.1 ha with h1 | h1
      · simpa using hwin a h1
      · have : a = now := by simpa using h1
        subst this
        have : (0 : ℚ) < (window : ℚ) := by exact_mod_cast hW
        simpa using this
    rw [hall]
    simp only [List.length_append, List.length_cons, List.length_nil]
    push_cast
    omega
  · have hres := check_result_iff st idv now hN hW
    have hfil : (st idv ++ [now]).filter (fun t => now - t < (window : ℚ)) = [now] := by
      rw [List.filter_append]
      have h1 : (st idv).filter (fun t => now - t < (window : ℚ)) = [] := by
        rw [List.filter_eq_nil_iff]
        intro a ha
        have := hold a ha
        simp only [decide_eq_true_eq]
        intro hco
        linarith
      have h2 : ([now] : List ℚ).filter (fun t => now - t < (window : ℚ)) = [now] := by
        have : (0 : ℚ) < (window : ℚ) := by exact_mod_cast hW
        simp [this]
      rw [h1, h2, List.nil_append]
    rcases hb : (image_rate_limit_check count window st idv now).1 with _ | _
    · exfalso
      have := hres.1 hb
      rw [hfil] at this
      simp at this
      omega
    · rfl

/-- Witness for C1: with `count = 1`, `window = 10`, the second call at
time `5` for the same identity (history `[0]`) is denied, and a call at
time `20` with the whole history more than `10` seconds old is
allowed. -/
theorem C1_witness :
    (image_rate_limit_check 1 10 (foldChecks 1 10 "u" (fun _ => []) [0]) "u" 5).1 = false
    ∧ (image_rate_limit_check 1 10 (fun _ => [0, 3]) "u" 20).1 = true := by
  constructor
  · exact (C1_rate_limiter 1 10 (fun _ => []) "u" 5).2.2.1 (by norm_num) (by norm_num) [0]
      (by norm_num) (by norm_num) (by norm_num)
  · exact (C1_rate_limiter 1 10 (fun _ => [0, 3]) "u" 20).2.2.2
      (by norm_num) (by norm_num) (by norm_num)

/-- Counterexample to C8 as stated: with limit `1` per `10` seconds,
after a check for identity `"a"` at time `0` and a later completed
check for identity `"b"` at time `20`, the table still holds the
timestamp `0` for `"a"`, which is not within the window of the time of
that check (`20 - 0 ≥ 10`): only the checked identity's list is
pruned. -/
theorem C8_counterexample :
    (0 : ℚ) ∈ (image_rate_limit_check 1 10
        ((image_rate_limit_check 1 10 (fun _ => []) "a" 0).2) "b" 20).2 "a"
    ∧ ¬((20 : ℚ) - 0 < (10 : ℚ)) := by
  constructor
  · norm_num [image_rate_limit_check]
    simp
  · norm_num

/-- Claim C8 (amended): after every completed enabled check, the list of
the identity being checked contains only timestamps within the
configured window of the time of that check; lists of other identities
are pruned only on their own next check. -/
theorem C8_amended (count window : Int) (st : String → List ℚ) (idv : String)
    (now : ℚ) (hN : 0 < count) (hW : 0 < window) :
    ∀ t ∈ (image_rate_limit_check count window st idv now).2 idv,
      now - t < (window : ℚ) := by
  rw [check_state_eq st idv now hN hW]
  intro t ht
  have := (List.mem_filter.1 ht).2
  simpa using this

/-- Witness for C8 (amended) at `count = 1`, `window = 10`, a stale
history `[0, 100]` and a check at time `101`. -/
theorem C8_witness :
    (0 : Int) < 1 ∧ (0 : Int) < 10 ∧
      ∀ t ∈ (image_rate_limit_check 1 10 (fun _ => [(0 : ℚ), 100]) "a" 101).2 "a",
        (101 : ℚ) - t < 10 :=
  ⟨by norm_num, by norm_num,
    C8_amended 1 10 (fun _ => [0, 100]) "a" 101 (by norm_num) (by norm_num)⟩

/-- Claim C10: with the limiter enabled, every call appends the current
timestamp to the identity's history before the limit decision — the new
timestamp is in the stored list after the call, in particular also when
the call returns `false`, so denied attempts count toward the limit in
subsequent checks. -/
theorem C10_denied_calls_count (count window : Int) (st : String → List ℚ)
    (idv : String) (now : ℚ) (hN : 0 < count) (hW : 0 < window) :
    (image_rate_limit_check count window st idv now).2 idv =
      (st idv ++ [now]).filter (fun t => now - t < (window : ℚ))
    ∧ now ∈ (image_rate_limit_check count window st idv now).2 idv
    ∧ ((image_rate_limit_check count window st idv now).1 = false →
        now ∈ (image_rate_limit_check count window st idv now).2 idv) := by
  have hs := check_state_eq st idv now hN hW
  have hmem : now ∈ (image_rate_limit_check count window st idv now).2 idv := by
    rw [hs, List.mem_filter]
    refine ⟨by simp, ?_⟩
    have : (0 : ℚ) < (window : ℚ) := by exact_mod_cast hW
    simpa using this
  exact ⟨hs, hmem, fun _ => hmem⟩

/-- Witness for C10: the denied second call at time `1` (history `[0]`,
limit `1` per `10` seconds) still records its timestamp. -/
theorem C10_witness :
    (image_rate_limit_check 1 10 (fun _ => [(0 : ℚ)]) "u" 1).1 = false
    ∧ (1 : ℚ) ∈ (image_rate_limit_check 1 10 (fun _ => [(0 : ℚ)]) "u" 1).2 "u" := by
  refine ⟨by norm_num [image_rate_limit_check], ?_⟩
  exact (C10_denied_calls_count 1 10 (fun _ => [(0 : ℚ)]) "u" 1 (by norm_num) (by norm_num)).2.1

/-! ### Claims about the end-user field (C9) -/

theorem sha1Hex_length (s : String) : (sha1Hex s).length = 40 := by
  rcases h : sha1Hash s with ⟨a, b, c, d, e⟩
  simp [sha1Hex, h, hex8, String.length]

/-- Counterexample to C9 as stated: with the end-user-identifier flag
not configured, the `user` field sent is `str(None) = "None"`, so for
the caller identity `"None"` the field sent equals the raw identity. -/
theorem C9_counterexample :
    dalleBuildRequest ⟨"dall-e-3", 0, 0⟩ false (some "a cat") "None" "1024x1024" "vivid" "standard" 1
      = .ok (.inr { model := "dall-e-3", prompt := "a cat", size := "1024x1024",
                    quality := "standard", n := 1, style := "vivid", user := "None" })
    ∧ dalleUserField false "None" = "None" := by
  exact ⟨by decide, rfl⟩

/-- Claim C9 (amended): with the flag configured the `user` field is
the SHA-1 hex digest of the identity's string form (40 hex characters,
hence never equal to an identity whose string form is not 40
characters long); with the flag off the field is the literal string
`"None"` (`str(None)`), which equals the raw identity exactly when the
identity is `"None"`. -/
theorem C9_amended (idv : String) :
    dalleUserField true idv = sha1Hex idv
    ∧ dalleUserField false idv = "None"
    ∧ (dalleUserField true idv).length = 40
    ∧ (idv.length ≠ 40 → dalleUserField true idv ≠ idv)
    ∧ (idv ≠ "None" → dalleUserField false idv ≠ idv) := by
  refine ⟨rfl, rfl, sha1Hex_length idv, fun h hEq => ?_, fun h hEq => ?_⟩
  · exact h (by rw [← hEq]; exact sha1Hex_length idv)
  · exact h (hEq.symm.trans rfl)

/-- Witness for C9 (amended) at the identity `"abc"`. -/
theorem C9_witness :
    ("abc" : String).length ≠ 40 ∧ ("abc" : String) ≠ "None"
    ∧ dalleUserField true "abc" ≠ "abc" ∧ dalleUserField false "abc" ≠ "abc" :=
  ⟨by decide, by decide, (C9_amended "abc").2.2.2.1 (by decide),
    (C9_amended "abc").2.2.2.2 (by decide)⟩

/-! ### Claims about parameter precedence (C2) -/

/-- Counterexample to C2 as stated: calling `DalleEngine.imagine` with
the explicit per-call argument `style = "natural"` on the prompt
`"a cat --vivid"` builds a request with `style = "vivid"` — the
directive parsed from the prompt overrides the per-call argument, not
the other way round. -/
theorem C2_counterexample :
    dalleBuildRequest ⟨"dall-e-3", 0, 0⟩ false (some "a cat --vivid") "0" "1024x1024" "natural" "standard" 1
      = .ok (.inr { model := "dall-e-3", prompt := "a cat", size := "1024x1024",
                    quality := "standard", n := 1, style := "vivid", user := "None" })
    ∧ ("vivid" : String) ≠ "natural" := by
  exact ⟨by decide, by decide⟩

/-- Claim C2 (amended): the precedence order is the reverse of the one
claimed for the first two levels — a directive parsed from the prompt
overrides the per-call explicit argument, which in turn overrides the
engine default.  Shown for the style directive of provider A (for any
per-call `style`) and for the aspect-ratio chain of provider B:
the settings default is used when the per-call ratio is the sentinel
`"1:1"`, a non-sentinel per-call ratio overrides it, and a `--ratio`
directive overrides whatever `data` holds, for every per-call value. -/
theorem C2_amended :
    (∀ model size style quality p0,
      strContains (pyReplace p0 "—" "--") "--natural" = true →
      strContains (pyReplace (pyReplace p0 "—" "--") "--natural" "") "--vivid" = false →
      (dalleDirectives model size style quality p0).2.2.1 = "natural")
    ∧ (∀ s negp seed, (stabilitySeedData s negp seed "1:1").aspect_r = some s.ImageGenerationSize)
    ∧ (∀ s negp seed ratioArg, ratioArg ≠ "1:1" →
        (stabilitySeedData s negp seed ratioArg).aspect_r = some ratioArg)
    ∧ (∀ p d pre after more tok rest,
        strContains p "--ratio" = true →
        pySplitStr p "--ratio" = pre :: after :: more →
        pySplitWS (pyStrip after) = tok :: rest →
        stabilityStepRatio p d =
          .ok (pyReplace p ("--ratio " ++ tok) "", { d with aspect_r := some tok })) := by
  refine ⟨fun model size style quality p0 h1 h2 => ?_, fun s negp seed => ?_,
    fun s negp seed ratioArg h => ?_, fun p d pre after more tok rest h1 h2 h3 => ?_⟩
  · simp only [dalleDirectives, h1, h2, if_true, if_false, Bool.false_eq_true]
  · rcases negp with _ | np <;> by_cases h0 : 0 < seed <;>
      simp [stabilitySeedData, h0]
  · rcases negp with _ | np <;> by_cases h0 : 0 < seed <;>
      simp [stabilitySeedData, h0, h]
  · simp only [stabilityStepRatio, h1, if_true, h2, h3]

/-- Witness for C2 (amended): the style directive wins over the
per-call style, and `--ratio 16:9` wins over the seeded `data`. -/
theorem C2_witness :
    strContains (pyReplace "x --natural" "—" "--") "--natural" = true
    ∧ (dalleDirectives "dall-e-3" "1024x1024" "vivid" "standard" "x --natural").2.2.1 = "natural"
    ∧ stabilityStepRatio "a --ratio 16:9" { aspect_r := some "21:9" }
        = .ok (pyReplace "a --ratio 16:9" ("--ratio " ++ "16:9") "",
            { aspect_r := some "16:9" }) := by
  refine ⟨by decide, ?_, ?_⟩
  · exact C2_amended.1 "dall-e-3" "1024x1024" "vivid" "standard" "x --natural"
      (by decide) (by decide)
  · exact C2_amended.2.2.2 "a --ratio 16:9" { aspect_r := some "21:9" } "a " " 16:9" [] "16:9" []
      (by decide) (by decide) (by decide)

/-! ### Claims about directive effects and the empty-prompt guard (C3, C4) -/

/-- C3 failing input: `StabilityEngine.imagine` on `"a cat --horizontal"`
with the default `1:1` settings strips the token from the prompt but
builds the request with `aspect_ratio = "1:1"`, not the `"16:9"` the
method's own docstring promises: the parsed orientation is assigned to
a local variable after `data` was already seeded, so it never reaches
the request. -/
theorem C3_horizontal_dead :
    stabilityBuildData ⟨"1:1", none, 0, 0, 0⟩ (some "a cat --horizontal") "1:1" none 0 "jpeg"
      = .ok (.inr { negative_prompt := none, aspect_r := some "1:1", seed := some 0,
                    prompt := "a cat ", output_format := "jpeg" })
    ∧ some ("1:1" : String) ≠ some "16:9"
    ∧ strContains "a cat " "--horizontal" = false := by
  exact ⟨by decide, by decide, by decide⟩

/-- Counterexample to C4 as stated: `StabilityEngine.imagine` checks for
an empty prompt only *before* directive stripping, and never trims.
The prompt `"--horizontal"` (only a directive) therefore produces a
provider request with empty prompt text instead of an early
empty-prompt return; with a successful mocked response the provider
call visibly went through. -/
theorem C4_counterexample :
    stabilityBuildData ⟨"1:1", none, 0, 0, 0⟩ (some "--horizontal") "1:1" none 0 "jpeg"
      = .ok (.inr { negative_prompt := none, aspect_r := some "1:1", seed := some 0,
                    prompt := "", output_format := "jpeg" })
    ∧ stabilityImagine ⟨"1:1", none, 0, 0, 0⟩ (fun _ => []) 0
        (.ok ⟨200, .ok { image := some "IMG", seed := some 1, finish_reason := some "SUCCESS" }⟩)
        (some "--horizontal") "u" "1:1" none 0 "jpeg" false
      = (some "IMG", none) := by
  exact ⟨by decide, by decide⟩

/-- Claim C4 (amended): provider A behaves as claimed — after all
substitutions the prompt is trimmed and, when the trimmed result is
empty, `imagine` returns the empty-prompt message without building a
request (and otherwise the request carries exactly the trimmed
prompt).  Provider B instead rejects only a `None` or literally empty
*input* prompt, before any directive stripping; a prompt consisting
only of directives is sent to the provider with empty prompt text. -/
theorem C4_amended :
    (∀ (s : DalleSettings) endU p0 idv size style quality n,
      pyStrip (dalleDirectives s.ImageGenModel size style quality p0).1 = "" →
      dalleBuildRequest s endU (some p0) idv size style quality n
        = .ok (.inl (none, some "No text prompt was given. Please try again.")))
    ∧ (∀ (s : DalleSettings) endU p0 idv size style quality n,
      pyStrip (dalleDirectives s.ImageGenModel size style quality p0).1 ≠ "" →
      dalleBuildRequest s endU (some p0) idv size style quality n
        = .ok (.inr (DalleRequest.mk s.ImageGenModel
            (pyStrip (dalleDirectives s.ImageGenModel size style quality p0).1)
            (dalleDirectives s.ImageGenModel size style quality p0).2.1
            (dalleDirectives s.ImageGenModel size style quality p0).2.2.2
            n
            (dalleDirectives s.ImageGenModel size style quality p0).2.2.1
            (dalleUserField endU idv))))
    ∧ (∀ (s : StabilitySettings) ratioArg negp seed fmt,
      stabilityBuildData s none ratioArg negp seed fmt
        = .ok (.inl (none, some "No text prompt was given. Please try again."))
      ∧ stabilityBuildData s (some "") ratioArg negp seed fmt
        = .ok (.inl (none, some "Text prompt is empty. Please try again."))) := by
  refine ⟨fun s endU p0 idv size style quality n h => ?_,
    fun s endU p0 idv size style quality n h => ?_,
    fun s ratioArg negp seed fmt => ⟨rfl, rfl⟩⟩
  · rcases h4 : dalleDirectives s.ImageGenModel size style quality p0 with ⟨p1, s1, st1, q1⟩
    rw [h4] at h
    simp only [dalleBuildRequest, h4, h, if_true]
  · rcases h4 : dalleDirectives s.ImageGenModel size style quality p0 with ⟨p1, s1, st1, q1⟩
    rw [h4] at h
    simp only [dalleBuildRequest, h4, h, if_false]

/-- Witness for C4 (amended): `"--hd --vivid"` strips to the empty
prompt on provider A and yields the empty-prompt result, while a
nonempty prompt builds the request with the trimmed text. -/
theorem C4_witness :
    pyStrip (dalleDirectives "dall-e-3" "1024x1024" "vivid" "standard" "--hd --vivid").1 = ""
    ∧ dalleBuildRequest ⟨"dall-e-3", 0, 0⟩ false (some "--hd --vivid") "u" "1024x1024" "vivid" "standard" 1
      = .ok (.inl (none, some "No text prompt was given. Please try again."))
    ∧ dalleBuildRequest ⟨"dall-e-3", 0, 0⟩ false (some " a cat ") "u" "1024x1024" "vivid" "standard" 1
      = .ok (.inr (DalleRequest.mk "dall-e-3"
          (pyStrip (dalleDirectives "dall-e-3" "1024x1024" "vivid" "standard" " a cat ").1)
          (dalleDirectives "dall-e-3" "1024x1024" "vivid" "standard" " a cat ").2.1
          (dalleDirectives "dall-e-3" "1024x1024" "vivid" "standard" " a cat ").2.2.2
          1
          (dalleDirectives "dall-e-3" "1024x1024" "vivid" "standard" " a cat ").2.2.1
          (dalleUserField false "u"))) := by
  refine ⟨by decide, ?_, ?_⟩
  · exact C4_amended.1 ⟨"dall-e-3", 0, 0⟩ false "--hd --vivid" "u" "1024x1024" "vivid" "standard" 1
      (by decide)
  · exact C4_amended.2.1 ⟨"dall-e-3", 0, 0⟩ false " a cat " "u" "1024x1024" "vivid" "standard" 1
      (by decide)

/-! ### Claims about response classification (C5) -/

/-- Counterexample to C5 as stated: on provider A a server error
(HTTP 500 surfaces as `openai.InternalServerError`, which is neither
`BadRequestError` nor `RateLimitError`) falls into the generic
`except Exception` handler, so `imagine` returns `(None, None)` — the
500 outcome carries no user-facing message at all. -/
theorem C5_counterexample :
    dalleImagine ⟨"dall-e-3", 0, 0⟩ false (fun _ => []) 0 .otherException
      (some "a cat") "u" "1024x1024" "vivid" "standard" 1 false = (none, none) := by
  decide

/-- Claim C5 (amended): provider B maps 400, 403, 500 and any other
non-success status (which is where provider-side rate limiting lands)
to four pairwise distinct user-facing messages; provider A maps
content-policy violations, generic bad requests and provider rate
limiting to three pairwise distinct user-facing messages but maps
server errors to `(None, None)` with no message; in both engines the
content-policy message differs from the generic bad-request message. -/
theorem C5_amended :
    stabilityImagine ⟨"1:1", none, 0, 0, 0⟩ (fun _ => []) 0 (.ok ⟨400, .ok {}⟩)
        (some "a cat") "u" "1:1" none 0 "jpeg" false
      = (none, some "Your request was rejected (BadRequest).")
    ∧ stabilityImagine ⟨"1:1", none, 0, 0, 0⟩ (fun _ => []) 0 (.ok ⟨403, .ok {}⟩)
        (some "a cat") "u" "1:1" none 0 "jpeg" false
      = (none, some "Your request was flagged by content moderation. Please review it and try again.")
    ∧ stabilityImagine ⟨"1:1", none, 0, 0, 0⟩ (fun _ => []) 0 (.ok ⟨500, .ok {}⟩)
        (some "a cat") "u" "1:1" none 0 "jpeg" false
      = (none, some "Service is down. Please try again later.")
    ∧ stabilityImagine ⟨"1:1", none, 0, 0, 0⟩ (fun _ => []) 0 (.ok ⟨429, .ok {}⟩)
        (some "a cat") "u" "1:1" none 0 "jpeg" false
      = (none, some "Could not generate image. Please try again.")
    ∧ (some "Your request was rejected (BadRequest)." : Option String)
        ≠ some "Your request was flagged by content moderation. Please review it and try again."
    ∧ (some "Your request was rejected (BadRequest)." : Option String)
        ≠ some "Service is down. Please try again later."
    ∧ (some "Your request was rejected (BadRequest)." : Option String)
        ≠ some "Could not generate image. Please try again."
    ∧ (some "Your request was flagged by content moderation. Please review it and try again." : Option String)
        ≠ some "Service is down. Please try again later."
    ∧ (some "Your request was flagged by content moderation. Please review it and try again." : Option String)
        ≠ some "Could not generate image. Please try again."
    ∧ (some "Service is down. Please try again later." : Option String)
        ≠ some "Could not generate image. Please try again."
    ∧ dalleImagine ⟨"dall-e-3", 0, 0⟩ false (fun _ => []) 0
        (.badRequestError "Error code: 400 - content_policy_violation")
        (some "a cat") "u" "1024x1024" "vivid" "standard" 1 false
      = (none, some "Your request was rejected because it may violate content policy. Please review it and try again.")
    ∧ dalleImagine ⟨"dall-e-3", 0, 0⟩ false (fun _ => []) 0
        (.badRequestError "Error code: 400 - invalid size")
        (some "a cat") "u" "1024x1024" "vivid" "standard" 1 false
      = (none, some "Your request was rejected. Please review it and try again.")
    ∧ dalleImagine ⟨"dall-e-3", 0, 0⟩ false (fun _ => []) 0 .rateLimitError
        (some "a cat") "u" "1024x1024" "vivid" "standard" 1 false
      = (none, some "Service is getting rate limited. Please try again later.")
    ∧ dalleImagine ⟨"dall-e-3", 0, 0⟩ false (fun _ => []) 0 .otherException
        (some "a cat") "u" "1024x1024" "vivid" "standard" 1 false
      = (none, none)
    ∧ (some "Your request was rejected because it may violate content policy. Please review it and try again." : Option String)
        ≠ some "Your request was rejected. Please review it and try again."
    ∧ (some "Your request was rejected because it may violate content policy. Please review it and try again." : Option String)
        ≠ some "Service is getting rate limited. Please try again later."
    ∧ (some "Your request was rejected. Please review it and try again." : Option String)
        ≠ some "Service is getting rate limited. Please try again later." := by
  decide

/-! ### Claims about exception propagation (C6) -/

/-- Counterexample to C6 as stated: an exception inside
`generate_image` is answered with a bare Python `None` (modelled
`none`), not with the two-element result tuple: the "every failure is
converted into the two-element result tuple" part fails for this entry
point (on both engines). -/
theorem C6_counterexample :
    dalleGenerate_image ⟨"dall-e-3", 0, 0⟩ false (fun _ => []) 0 .otherException true
        (some "a cat") none none = none
    ∧ stabilityGenerate_image ⟨"1:1", none, 0, 0, 0⟩ (fun _ => []) 0 (.ok ⟨200, .ok {}⟩) true
        (some "a cat") none none = none := by
  exact ⟨rfl, rfl⟩

/-- Claim C6 (amended): no exception escapes: inside `imagine` any
exception of the `try` body — an unhandled provider exception, a
`None` prompt, a failing provider call or a failing response parse —
is converted into the tuple `(None, None)`; `generate_image`, however,
answers an internal exception with a bare `None` rather than a
two-element tuple. -/
theorem C6_amended :
    (∀ (s : DalleSettings) endU st now prompt idv size style quality n revision req,
      (image_rate_limit_check s.ImageRateLimitCount s.ImageRateLimitTime st idv now).1 = true →
      dalleBuildRequest s endU prompt idv size style quality n = .ok (.inr req) →
      dalleImagine s endU st now .otherException prompt idv size style quality n revision
        = (none, none))
    ∧ (∀ (s : DalleSettings) endU st now o idv size style quality n revision,
      (image_rate_limit_check s.ImageRateLimitCount s.ImageRateLimitTime st idv now).1 = true →
      dalleImagine s endU st now o none idv size style quality n revision = (none, none))
    ∧ (∀ (s : StabilitySettings) st now prompt idv ratioArg negp seed fmt revision d,
      (image_rate_limit_check s.ImageRateLimitCount s.ImageRateLimitTime st idv now).1 = true →
      stabilityBuildData s prompt ratioArg negp seed fmt = .ok (.inr d) →
      stabilityImagine s st now .raised prompt idv ratioArg negp seed fmt revision
        = (none, none))
    ∧ (∀ (s : DalleSettings) endU st now o prompt orient sty,
      dalleGenerate_image s endU st now o true prompt orient sty = none)
    ∧ (∀ (s : StabilitySettings) st now resp prompt orient sty,
      stabilityGenerate_image s st now resp true prompt orient sty = none) := by
  refine ⟨fun s endU st now prompt idv size style quality n revision req h1 h2 => ?_,
    fun s endU st now o idv size style quality n revision h1 => ?_,
    fun s st now prompt idv ratioArg negp seed fmt revision d h1 h2 => ?_,
    fun s endU st now o prompt orient sty => rfl,
    fun s st now resp prompt orient sty => rfl⟩
  · simp [dalleImagine, h1, h2, dalleHandleOutcome]
  · simp [dalleImagine, h1, dalleBuildRequest]
  · simp [stabilityImagine, h1, h2]

/-- Witness for C6 (amended): with rate limiting disabled and a valid
prompt, an unhandled provider exception yields exactly `(None, None)`. -/
theorem C6_witness :
    (image_rate_limit_check (0 : Int) 0 (fun _ => []) "u" 0).1 = true
    ∧ dalleBuildRequest ⟨"dall-e-3", 0, 0⟩ false (some "a cat") "u" "1024x1024" "vivid" "standard" 1
      = .ok (.inr (DalleRequest.mk "dall-e-3" "a cat" "1024x1024" "standard" 1 "vivid" "None"))
    ∧ dalleImagine ⟨"dall-e-3", 0, 0⟩ false (fun _ => []) 0 .otherException
        (some "a cat") "u" "1024x1024" "vivid" "standard" 1 true = (none, none) := by
  refine ⟨rfl, by decide, ?_⟩
  exact C6_amended.1 ⟨"dall-e-3", 0, 0⟩ false (fun _ => []) 0 (some "a cat") "u"
    "1024x1024" "vivid" "standard" 1 true
    (DalleRequest.mk "dall-e-3" "a cat" "1024x1024" "standard" 1 "vivid" "None")
    rfl (by decide)

/-! ### Claims about `generate_image` (C7) -/

/-- Counterexample to C7 as stated: `generate_image(None)` returns the
two-element tuple `(None, None)` (`return None, None` at lines 191 /
414), not the bare `None` the claim requires for a `None` prompt. -/
theorem C7_counterexample :
    dalleGenerate_image ⟨"dall-e-3", 0, 0⟩ false (fun _ => []) 0 .otherException false
        none none none = some (none, none)
    ∧ some ((none : Option String), (none : Option String))
        ≠ (none : Option (Option String × Option String)) := by
  exact ⟨rfl, by decide⟩

/-- Claim C7 (amended): `generate_image` returns the tuple
`(None, None)` when the prompt is `None`, and a bare `None` on an
internal exception; otherwise it maps `landscape` / `portrait` /
absent orientation to the provider-appropriate size or ratio, fixes
the identity to `"function"`, forces `quality="standard"` on provider
A, and returns exactly the pair produced by `imagine` (provider A asks
for the revised prompt, provider B leaves `revision` at its default
`False`). -/
theorem C7_amended :
    (∀ (s : DalleSettings) endU st now o orient sty,
      dalleGenerate_image s endU st now o false none orient sty = some (none, none))
    ∧ (∀ (s : StabilitySettings) st now resp orient sty,
      stabilityGenerate_image s st now resp false none orient sty = some (none, none))
    ∧ (∀ (s : DalleSettings) endU st now o prompt orient sty,
      dalleGenerate_image s endU st now o true prompt orient sty = none)
    ∧ (∀ (s : StabilitySettings) st now resp prompt orient sty,
      stabilityGenerate_image s st now resp true prompt orient sty = none)
    ∧ (∀ (s : DalleSettings) endU st now o p sty,
      dalleGenerate_image s endU st now o false (some p) (some "landscape") sty
        = some (dalleImagine s endU st now o (some p) "function" "1792x1024"
            (match sty with
             | some v => if v = "natural" then "natural" else "vivid"
             | none => "vivid") "standard" 1 true)
      ∧ dalleGenerate_image s endU st now o false (some p) (some "portrait") sty
        = some (dalleImagine s endU st now o (some p) "function" "1024x1792"
            (match sty with
             | some v => if v = "natural" then "natural" else "vivid"
             | none => "vivid") "standard" 1 true)
      ∧ dalleGenerate_image s endU st now o false (some p) none sty
        = some (dalleImagine s endU st now o (some p) "function" "1024x1024"
            (match sty with
             | some v => if v = "natural" then "natural" else "vivid"
             | none => "vivid") "standard" 1 true))
    ∧ (∀ (s : StabilitySettings) st now resp p sty,
      stabilityGenerate_image s st now resp false (some p) (some "landscape") sty
        = some (stabilityImagine s st now resp (some p) "function" "16:9" none 0 "jpeg" false)
      ∧ stabilityGenerate_image s st now resp false (some p) (some "portrait") sty
        = some (stabilityImagine s st now resp (some p) "function" "9:16" none 0 "jpeg" false)
      ∧ stabilityGenerate_image s st now resp false (some p) none sty
        = some (stabilityImagine s st now resp (some p) "function" "1:1" none 0 "jpeg" false)) := by
  exact ⟨fun s endU st now o orient sty => rfl,
    fun s st now resp orient sty => rfl,
    fun s endU st now o prompt orient sty => rfl,
    fun s st now resp prompt orient sty => rfl,
    fun s endU st now o p sty => ⟨rfl, rfl, rfl⟩,
    fun s st now resp p sty => ⟨rfl, rfl, rfl⟩⟩
